import Mathlib

/-!
Shallow embedding of the recommendation engine
(src/ml_service/recommendation_engine.py) and of the model-reload endpoint
(src/ml_service/api/main.py).  Python floats are embedded as exact rationals;
wall-clock timestamps are explicit integer parameters (seconds); Python dicts
with optional keys are records of `Option` fields; the external
sklearn cosine-similarity routine and the system clock are explicit
parameters, because they are collaborators outside this module.
-/

/-- Truncation toward zero, the behaviour of the Python `int()` conversion
applied to a number. -/
def pyInt (q : ℚ) : ℤ := if 0 ≤ q then ⌊q⌋ else ⌈q⌉

/-- Round-half-to-even at integer precision, the behaviour of the Python
`round` builtin on the decimal value. -/
def bankersRound (x : ℚ) : ℤ :=
  let f := ⌊x⌋
  let r := x - f
  if r < 1/2 then f
  else if 1/2 < r then f + 1
  else if f % 2 = 0 then f else f + 1

/-- The Python `round(x, 4)` used throughout the engine when storing scores. -/
def round4 (x : ℚ) : ℚ := (bankersRound (x * 10000) : ℚ) / 10000

/-- A Python budget-range dict: any subset of the keys
fixed, estimated_hours, min, max may be present. -/
structure BudgetRange where
  fixed : Option ℚ := none
  estimated_hours : Option ℚ := none
  min : Option ℚ := none
  max : Option ℚ := none
deriving DecidableEq

/-- Python dict truthiness: an empty dict is falsy. -/
def BudgetRange.isEmpty (b : BudgetRange) : Bool :=
  b.fixed.isNone && b.estimated_hours.isNone && b.min.isNone && b.max.isNone

/-- ProjectRecommendationEngine._calculate_budget_alignment
(recommendation_engine.py lines 250-288).  A missing max key is the
float("inf") default: the in-range test degenerates to min ≤ rate and the
above-max branch is unreachable. -/
def project_calculate_budget_alignment (hourly_rate : ℚ) (budget_range : BudgetRange) : ℚ :=
  if budget_range.isEmpty then 1/2
  else
    match budget_range.fixed with
    | some fixed_budget =>
      let estimated_hours := budget_range.estimated_hours.getD 40
      let implicit_rate := fixed_budget / estimated_hours
      Min.min implicit_rate hourly_rate / Max.max implicit_rate hourly_rate
    | none =>
      let budget_min := budget_range.min.getD 0
      match budget_range.max with
      | none =>
        if budget_min ≤ hourly_rate then 1 else 4/5
      | some budget_max =>
        if budget_min ≤ hourly_rate ∧ hourly_rate ≤ budget_max then
          let position := (hourly_rate - budget_min) / (budget_max - budget_min)
          1 - |1/2 - position| * (2/5)
        else if hourly_rate < budget_min then 4/5
        else Max.max (budget_max / hourly_rate * (3/5)) (1/5)

/-- TalentRecommendationEngine._calculate_budget_alignment
(recommendation_engine.py lines 605-619): despite the docstring saying
Same as ProjectRecommendationEngine, it has no fixed-budget branch and
returns flat 1.0 anywhere inside the range. -/
def talent_calculate_budget_alignment (hourly_rate : ℚ) (budget_range : BudgetRange) : ℚ :=
  if budget_range.isEmpty then 1/2
  else
    let budget_min := budget_range.min.getD 0
    match budget_range.max with
    | none => if budget_min ≤ hourly_rate then 1 else 4/5
    | some budget_max =>
      if budget_min ≤ hourly_rate ∧ hourly_rate ≤ budget_max then 1
      else if hourly_rate < budget_min then 4/5
      else Max.max (budget_max / hourly_rate * (3/5)) (1/5)

/-- The inline skill-match computation of
ProjectRecommendationEngine.calculate_content_scores (lines 170-176). -/
def skill_match_score (profile_skills required_skills : Finset String) : ℚ :=
  if 0 < required_skills.card then
    ((profile_skills ∩ required_skills).card : ℚ) / required_skills.card
  else 1/2

/-- The inline skill-match computation of
TalentRecommendationEngine.generate_talent_recommendations (lines 531-536),
textually duplicated from the project engine. -/
def talent_skill_match (dev_skills required_skills : Finset String) : ℚ :=
  if 0 < required_skills.card then
    ((dev_skills ∩ required_skills).card : ℚ) / required_skills.card
  else 1/2

/-- The inline skill-match computation of
ColdStartRecommender.get_cold_start_project_recommendations (lines 714-720). -/
def cold_skill_match (dev_skills required_skills : Finset String) : ℚ :=
  if 0 < required_skills.card then
    ((dev_skills ∩ required_skills).card : ℚ) / required_skills.card
  else 1/2

def level_map (s : String) : ℤ :=
  if s = "junior" then 1 else if s = "mid" then 2
  else if s = "senior" then 3 else if s = "expert" then 4 else 2

def complexity_map (s : String) : ℤ :=
  if s = "low" then 1 else if s = "medium" then 2
  else if s = "high" then 3 else if s = "expert" then 4 else 2

/-- ProjectRecommendationEngine._calculate_experience_fit (lines 226-248). -/
def calculate_experience_fit (developer_level project_complexity : String) : ℚ :=
  let diff := (level_map developer_level - complexity_map project_complexity).natAbs
  if diff = 0 then 1 else if diff = 1 then 7/10 else 2/5

/-- TalentRecommendationEngine._calculate_experience_fit (lines 589-603),
a duplicate of the project-engine method. -/
def talent_calculate_experience_fit (dev_level complexity : String) : ℚ :=
  let diff := (level_map dev_level - complexity_map complexity).natAbs
  if diff = 0 then 1 else if diff = 1 then 7/10 else 2/5

/-- ProjectRecommendationEngine._calculate_recency_score (lines 290-314).
`now` and `created_at` are POSIX seconds; the Python
(datetime.now() - created_at).days floors the elapsed seconds by 86400. -/
def calculate_recency_score (now : ℤ) (created_at : Option ℤ) : ℚ :=
  match created_at with
  | none => 7/10
  | some c =>
    let days_old := Int.fdiv (now - c) 86400
    if days_old < 7 then 1
    else if days_old < 14 then 9/10
    else if days_old < 30 then 4/5
    else 7/10

/-- The optional preference map of a developer profile. -/
structure Preferences where
  project_types : Option (List String) := none
  remote_preference : Option String := none
  industries : Option (List String) := none
deriving DecidableEq

/-- A Python project dict with the keys the engine reads; absent optional
keys are `none`, keys read through .get with a default carry that default. -/
structure Project where
  id : String
  required_skills : List String := []
  complexity_level : String := "medium"
  budget_range : BudgetRange := {}
  created_at : Option ℤ := none
  project_type : Option String := none
  is_remote : Option Bool := none
  industry : Option String := none
  application_count : Option ℚ := none
deriving DecidableEq

/-- Developer-profile dict for the projects-for-developer direction. -/
structure DeveloperProfile where
  skills : List String := []
  experience_level : String := "mid"
  hourly_rate : ℚ := 50
  preferences : Preferences := {}
deriving DecidableEq

/-- ProjectRecommendationEngine._calculate_preference_match (lines 316-354). -/
def calculate_preference_match (preferences : Preferences) (project : Project) : ℚ :=
  let score : ℚ := 1/2
  let p1 : ℕ × ℕ :=
    match preferences.project_types, project.project_type with
    | some pref_types, some ptype => (if ptype ∈ pref_types then 1 else 0, 1)
    | _, _ => (0, 0)
  let p2 : ℕ × ℕ :=
    match preferences.remote_preference, project.is_remote with
    | some pref_remote, some is_remote =>
      (if (pref_remote = "remote_only" ∧ is_remote) ∨
          pref_remote = "hybrid" ∨ pref_remote = "no_preference" then 1
       else if pref_remote = "onsite_only" ∧ ¬ is_remote then 1 else 0, 1)
    | _, _ => (0, 0)
  let p3 : ℕ × ℕ :=
    match preferences.industries, project.industry with
    | some pref_inds, some ind => (if ind ∈ pref_inds then 1 else 0, 1)
    | _, _ => (0, 0)
  let num_matches := p1.1 + p2.1 + p3.1
  let total_prefs := p1.2 + p2.2 + p3.2
  if 0 < total_prefs then (num_matches : ℚ) / total_prefs else score

/-- The per-project score breakdown dict produced by
calculate_content_scores (lines 203-210); every entry is stored rounded. -/
structure Breakdown where
  skill_match : ℚ
  experience_match : ℚ
  budget_fit : ℚ
  recency_score : ℚ
  preference_match : ℚ
  composite_score : ℚ
deriving DecidableEq

/-- ProjectRecommendationEngine.calculate_content_scores (lines 147-212).
The clock read by the recency factor is the explicit `now` argument. -/
def calculate_content_scores (now : ℤ) (developer_profile : DeveloperProfile)
    (projects : List Project) : List (String × Breakdown) :=
  let developer_skills := developer_profile.skills.toFinset
  let experience_level := developer_profile.experience_level
  let hourly_rate := developer_profile.hourly_rate
  let preferences := developer_profile.preferences
  projects.map fun project =>
    let skill_match := skill_match_score developer_skills project.required_skills.toFinset
    let experience_match := calculate_experience_fit experience_level project.complexity_level
    let budget_fit := project_calculate_budget_alignment hourly_rate project.budget_range
    let recency_score := calculate_recency_score now project.created_at
    let preference_match := calculate_preference_match preferences project
    let composite_score :=
      skill_match * (7/20) + experience_match * (1/5) + budget_fit * (1/4)
        + recency_score * (1/10) + preference_match * (1/10)
    (project.id,
      { skill_match := round4 skill_match
        experience_match := round4 experience_match
        budget_fit := round4 budget_fit
        recency_score := round4 recency_score
        preference_match := round4 preference_match
        composite_score := round4 composite_score })

/-- The mutable fields of ProjectRecommendationEngine that make up a trained
snapshot (set in __init__, lines 26-33). -/
structure EngineState where
  similarity_model : Option (List (List ℚ)) := none
  user_item_matrix : Option (List (List ℚ)) := none
  user_index : List (String × Nat) := []
  item_index : List (String × Nat) := []
  model_version : String := "v1.0"
deriving DecidableEq

/-- Python dict lookup over an association list built by repeated insertion:
a later binding of the same key wins. -/
def dictGet {β : Type} (l : List (String × β)) (k : String) : Option β :=
  l.reverse.lookup k

/-- Stable ascending argsort of a list of values, the behaviour of
numpy argsort on this data (ties keep ascending index order). -/
def argsortAsc (l : List ℚ) : List ℕ :=
  (List.insertionSort (fun p q => p.2 ≤ q.2) ((List.range l.length).zip l)).map (·.1)

/-- The neighbor selection of calculate_collaborative_scores (line 116):
np.argsort(similarity_scores)[::-1][1 : top_k_similar + 1], which drops the
first element of the descending order on the assumption that it is self. -/
def similarNeighborIndices (similarity_scores : List ℚ) (top_k_similar : ℕ) : List ℕ :=
  (((argsortAsc similarity_scores).reverse).drop 1).take top_k_similar

/-- Entry [i][j] of the user-item matrix as read by iloc. -/
def interactionAt (st : EngineState) (i j : ℕ) : ℚ :=
  (((st.user_item_matrix.getD []).getD i []).getD j 0)

/-- ProjectRecommendationEngine.calculate_collaborative_scores (lines 94-145). -/
def calculate_collaborative_scores (st : EngineState) (user_id : String)
    (candidate_projects : List String) (top_k_similar : ℕ := 50) : List (String × ℚ) :=
  match st.similarity_model, dictGet st.user_index user_id with
  | some sim, some user_idx =>
    let similarity_scores := sim.getD user_idx []
    let similar_user_indices := similarNeighborIndices similarity_scores top_k_similar
    candidate_projects.map fun project_id =>
      match dictGet st.item_index project_id with
      | none => (project_id, 1/2)
      | some project_idx =>
        let nd := similar_user_indices.foldl
          (fun (nd : ℚ × ℚ) similar_idx =>
            let similarity := similarity_scores.getD similar_idx 0
            let interaction := interactionAt st similar_idx project_idx
            if 0 < interaction then (nd.1 + similarity * interaction, nd.2 + similarity)
            else nd)
          (0, 0)
        if 0 < nd.2 then (project_id, Min.min (nd.1 / nd.2 / 10) 1)
        else (project_id, 1/2)
  | _, _ => candidate_projects.map fun project_id => (project_id, 1/2)

/-- Developer dict for the developers-for-project direction, with the .get
defaults used in the talent engine. -/
structure Developer where
  user_id : String
  skills : List String := []
  experience_level : String := "mid"
  hourly_rate : ℚ := 50
  average_rating : ℚ := 4
  total_reviews : ℚ := 0
  completion_rate : ℚ := 4/5
  availability_status : String := "unknown"
deriving DecidableEq

/-- TalentRecommendationEngine._calculate_reputation_score (lines 621-638). -/
def calculate_reputation_score (developer : Developer) : ℚ :=
  let rating_score := (developer.average_rating - 1) / 4
  let review_credibility := Min.min (developer.total_reviews / 20) 1
  let reputation := rating_score * (3/5) + developer.completion_rate * (3/10)
    + review_credibility * (1/10)
  Min.min reputation 1

/-- TalentRecommendationEngine._calculate_availability_score (lines 640-648). -/
def calculate_availability_score (developer : Developer) : ℚ :=
  let s := developer.availability_status
  if s = "available" then 1
  else if s = "partially_available" then 7/10
  else if s = "busy" then 3/10
  else if s = "unknown" then 1/2
  else 1/2

/-- The f-string skill text of rule 1 in both explanation generators. -/
def strongSkillStr (skill_match : ℚ) : String :=
  "Strong skill match (" ++ toString (pyInt (skill_match * 100)) ++ "%)"

def goodSkillStr (skill_match : ℚ) : String :=
  "Good skill match (" ++ toString (pyInt (skill_match * 100)) ++ "%)"

/-- Python f"{x:.1f}" on a non-negative rational. -/
def fmt1 (q : ℚ) : String :=
  let n := bankersRound (q * 10)
  toString (n / 10) ++ "." ++ toString (n % 10)

/-- ProjectRecommendationEngine._generate_explanation (lines 431-468).
The profile and project arguments are accepted and unused, as in the source. -/
def generate_explanation (content_breakdown : Option Breakdown) (collab_score : ℚ)
    (_profile : DeveloperProfile) (_project : Project) : List String :=
  let e : List String := []
  let skill_match := (content_breakdown.map (·.skill_match)).getD 0
  let e := if 7/10 < skill_match then e ++ [strongSkillStr skill_match]
    else if 1/2 < skill_match then e ++ [goodSkillStr skill_match] else e
  let budget_fit := (content_breakdown.map (·.budget_fit)).getD 0
  let e := if 4/5 < budget_fit then e ++ ["Budget aligns with your rate"] else e
  let experience_match := (content_breakdown.map (·.experience_match)).getD 0
  let e := if 7/10 ≤ experience_match then
    e ++ ["Project complexity matches your experience"] else e
  let e := if 7/10 < collab_score then
    e ++ ["Developers with similar profiles have applied"] else e
  let recency := (content_breakdown.map (·.recency_score)).getD 0
  let e := if 1 ≤ recency then e ++ ["Recently posted project"] else e
  if e = [] then ["Matches your general profile"] else e

/-- TalentRecommendationEngine._generate_talent_explanation (lines 650-680). -/
def generate_talent_explanation (skill_match experience_match budget_fit reputation : ℚ)
    (developer : Developer) : List String :=
  let e : List String := []
  let e := if 7/10 < skill_match then e ++ [strongSkillStr skill_match] else e
  let e := if 7/10 ≤ experience_match then
    e ++ ["Experience level matches project complexity"] else e
  let e := if 4/5 < budget_fit then e ++ ["Rate within your budget"] else e
  let e := if 4/5 < reputation then
    e ++ ["Highly rated (" ++ fmt1 developer.average_rating ++ "/5.0)"] else e
  let e := if developer.availability_status = "available" then
    e ++ ["Currently available"] else e
  if e = [] then ["Matches project requirements"] else e

/-- The descending key ordering used by the Python stable
list.sort(key=relevance_score, reverse=True). -/
def descBy {α : Type} (score : α → ℚ) : α → α → Prop := fun a b => score b ≤ score a

instance descByDecidable {α : Type} (score : α → ℚ) : DecidableRel (descBy score) :=
  fun a b => inferInstanceAs (Decidable (score b ≤ score a))
instance descByTotal {α : Type} (score : α → ℚ) : IsTotal α (descBy score) :=
  ⟨fun a b => le_total (score b) (score a)⟩

instance descByTrans {α : Type} (score : α → ℚ) : IsTrans α (descBy score) :=
  ⟨fun _ _ _ h1 h2 => le_trans h2 h1⟩

/-- Python list.sort(key=..., reverse=True): a stable descending sort,
realized here by insertion sort, which produces the same list as any
stable sort. -/
def sortKeyDesc {α : Type} (score : α → ℚ) (l : List α) : List α :=
  List.insertionSort (descBy score) l

/-- rank_position assignment: each of the first elements of the truncated
sorted list receives rank idx + 1 (lines 426-427, 584-585, 744-745). -/
def rankAssignFrom {α : Type} (setRank : α → ℕ → α) : ℕ → List α → List α
  | _, [] => []
  | k, x :: xs => setRank x (k + 1) :: rankAssignFrom setRank (k + 1) xs

/-- Sort by relevance descending, truncate to the limit, assign 1-based
rank positions: the shared tail of all three recommendation generators. -/
def finalizeRanked {α : Type} (score : α → ℚ) (setRank : α → ℕ → α)
    (recommendations : List α) (limit : ℕ) : List α :=
  rankAssignFrom setRank 0 ((sortKeyDesc score recommendations).take limit)

/-- A recommendation dict built by generate_project_recommendations
(lines 407-420); rank_position is absent until assigned. -/
structure ProjectRec where
  project_id : String
  relevance_score : ℚ
  collaborative_score : ℚ
  content_score : ℚ
  skill_match_score : ℚ
  budget_fit_score : ℚ
  experience_match_score : ℚ
  recency_score : ℚ
  explanation : List String
  model_version : String
  rank_position : Option ℕ := none
deriving DecidableEq

def ProjectRec.setRank (r : ProjectRec) (n : ℕ) : ProjectRec :=
  { r with rank_position := some n }

/-- The caller-supplied hybrid weight dict (default collaborative 0.6,
content 0.4). -/
structure HybridWeights where
  collaborative : ℚ
  content : ℚ
deriving DecidableEq

/-- The recommendation list built in input order by
generate_project_recommendations before sorting (lines 388-420). -/
def build_project_recs (st : EngineState) (now : ℤ) (developer_id : String)
    (developer_profile : DeveloperProfile) (candidate_projects : List Project)
    (hybrid_weights : Option HybridWeights) : List ProjectRec :=
  let hw := hybrid_weights.getD { collaborative := 3/5, content := 2/5 }
  let project_ids := candidate_projects.map (·.id)
  let collaborative_scores := calculate_collaborative_scores st developer_id project_ids
  let content_scores := calculate_content_scores now developer_profile candidate_projects
  candidate_projects.map fun project =>
    let project_id := project.id
    let collab_score := (dictGet collaborative_scores project_id).getD (1/2)
    let content_breakdown := dictGet content_scores project_id
    let content_score := (content_breakdown.map (·.composite_score)).getD (1/2)
    let relevance_score := collab_score * hw.collaborative + content_score * hw.content
    { project_id := project_id
      relevance_score := round4 relevance_score
      collaborative_score := round4 collab_score
      content_score := round4 content_score
      skill_match_score := (content_breakdown.map (·.skill_match)).getD (1/2)
      budget_fit_score := (content_breakdown.map (·.budget_fit)).getD (1/2)
      experience_match_score := (content_breakdown.map (·.experience_match)).getD (1/2)
      recency_score := (content_breakdown.map (·.recency_score)).getD (7/10)
      explanation := generate_explanation content_breakdown collab_score developer_profile project
      model_version := st.model_version }

/-- ProjectRecommendationEngine.generate_project_recommendations
(lines 356-429). -/
def generate_project_recommendations (st : EngineState) (now : ℤ) (developer_id : String)
    (developer_profile : DeveloperProfile) (candidate_projects : List Project)
    (limit : ℕ := 10) (hybrid_weights : Option HybridWeights := none) : List ProjectRec :=
  finalizeRanked (·.relevance_score) ProjectRec.setRank
    (build_project_recs st now developer_id developer_profile candidate_projects hybrid_weights)
    limit

/-- A developer recommendation dict built by generate_talent_recommendations
(lines 567-579). -/
structure TalentRec where
  developer_user_id : String
  relevance_score : ℚ
  skill_match_score : ℚ
  experience_match_score : ℚ
  budget_fit_score : ℚ
  reputation_score : ℚ
  availability_score : ℚ
  explanation : List String
  model_version : String
  rank_position : Option ℕ := none
deriving DecidableEq

def TalentRec.setRank (r : TalentRec) (n : ℕ) : TalentRec :=
  { r with rank_position := some n }

/-- The recommendation list built in input order by
generate_talent_recommendations before sorting (lines 522-579).
`model_version` is the talent engine's version field. -/
def build_talent_recs (model_version : String) (project : Project)
    (candidate_developers : List Developer) : List TalentRec :=
  let required_skills := project.required_skills.toFinset
  let project_complexity := project.complexity_level
  let budget_range := project.budget_range
  candidate_developers.map fun developer =>
    let dev_skills := developer.skills.toFinset
    let skill_match := talent_skill_match dev_skills required_skills
    let experience_match :=
      talent_calculate_experience_fit developer.experience_level project_complexity
    let hourly_rate := developer.hourly_rate
    let budget_fit := talent_calculate_budget_alignment hourly_rate budget_range
    let reputation_score := calculate_reputation_score developer
    let availability_score := calculate_availability_score developer
    let relevance_score :=
      skill_match * (7/20) + experience_match * (1/5) + budget_fit * (1/5)
        + reputation_score * (3/20) + availability_score * (1/10)
    { developer_user_id := developer.user_id
      relevance_score := round4 relevance_score
      skill_match_score := round4 skill_match
      experience_match_score := round4 experience_match
      budget_fit_score := round4 budget_fit
      reputation_score := round4 reputation_score
      availability_score := round4 availability_score
      explanation := generate_talent_explanation skill_match experience_match budget_fit
        reputation_score developer
      model_version := model_version }

/-- TalentRecommendationEngine.generate_talent_recommendations
(lines 508-587). -/
def generate_talent_recommendations (model_version : String) (project : Project)
    (candidate_developers : List Developer) (limit : ℕ := 10) : List TalentRec :=
  finalizeRanked (·.relevance_score) TalentRec.setRank
    (build_talent_recs model_version project candidate_developers) limit

/-- A cold-start recommendation dict (lines 729-740). -/
structure ColdRec where
  project_id : String
  relevance_score : ℚ
  skill_match_score : ℚ
  explanation : List String
  model_version : String
  rank_position : Option ℕ := none
deriving DecidableEq

def ColdRec.setRank (r : ColdRec) (n : ℕ) : ColdRec :=
  { r with rank_position := some n }

/-- The recommendation list built in input order by
ColdStartRecommender.get_cold_start_project_recommendations before sorting
(lines 709-740); popular_projects is the state set by set_popular_items. -/
def build_cold_start_recs (popular_projects : List Project)
    (developer_profile : DeveloperProfile) : List ColdRec :=
  let dev_skills := developer_profile.skills.toFinset
  popular_projects.map fun project =>
    let required_skills := project.required_skills.toFinset
    let skill_match := cold_skill_match dev_skills required_skills
    let application_count := project.application_count.getD 0
    let popularity_score := Min.min (application_count / 50) 1
    let relevance_score := popularity_score * (7/10) + skill_match * (3/10)
    { project_id := project.id
      relevance_score := round4 relevance_score
      skill_match_score := round4 skill_match
      explanation := ["Popular project on the platform",
        "Matches " ++ toString (pyInt (skill_match * 100)) ++ "% of your skills"]
      model_version := "cold_start_v1" }

/-- ColdStartRecommender.get_cold_start_project_recommendations
(lines 703-746). -/
def get_cold_start_project_recommendations (popular_projects : List Project)
    (developer_profile : DeveloperProfile) (limit : ℕ := 10) : List ColdRec :=
  finalizeRanked (·.relevance_score) ColdRec.setRank
    (build_cold_start_recs popular_projects developer_profile) limit

/-- The pickled snapshot dict read by load_model: each of the five required
keys may be absent from a deserialized blob. -/
structure ModelBlob where
  similarity_model : Option (Option (List (List ℚ))) := none
  user_item_matrix : Option (Option (List (List ℚ))) := none
  user_index : Option (List (String × Nat)) := none
  item_index : Option (List (String × Nat)) := none
  model_version : Option String := none
deriving DecidableEq

/-- Outcome of opening and unpickling the model file: the file may be
absent, the bytes may fail to deserialize, or a dict is produced. -/
inductive LoadInput where
  | fileMissing
  | corruptBytes
  | parsed (blob : ModelBlob)
deriving DecidableEq

/-- ProjectRecommendationEngine.load_model (lines 486-497).  The result pairs
the engine state after the call with the raised exception, if any: the five
field assignments run in order and a KeyError aborts the rest, leaving the
assignments already made in place. -/
def load_model (st : EngineState) (input : LoadInput) : EngineState × Option String :=
  match input with
  | .fileMissing => (st, some "FileNotFoundError")
  | .corruptBytes => (st, some "UnpicklingError")
  | .parsed blob =>
    match blob.similarity_model with
    | none => (st, some "KeyError: similarity_model")
    | some sm =>
      let st1 := { st with similarity_model := sm }
      match blob.user_item_matrix with
      | none => (st1, some "KeyError: user_item_matrix")
      | some m =>
        let st2 := { st1 with user_item_matrix := m }
        match blob.user_index with
        | none => (st2, some "KeyError: user_index")
        | some ui =>
          let st3 := { st2 with user_index := ui }
          match blob.item_index with
          | none => (st3, some "KeyError: item_index")
          | some ii =>
            let st4 := { st3 with item_index := ii }
            match blob.model_version with
            | none => (st4, some "KeyError: model_version")
            | some v => ({ st4 with model_version := v }, none)

/-- One row of the interaction DataFrame passed to
train_collaborative_model. -/
structure InteractionRow where
  user_id : String
  project_id : String
  interaction_type : String
deriving DecidableEq

/-- The interaction DataFrame: its rows plus the presence and contents of a
"weight" column (absent on caller-supplied raw interaction data, NaN cells
are `none`). -/
structure InteractionFrame where
  rows : List InteractionRow
  weight_col : Option (List (Option ℚ)) := none
deriving DecidableEq

/-- The fixed interaction weight map (view 1, apply 3, hire 5);
an unknown type maps to NaN. -/
def weightMap (t : String) : Option ℚ :=
  if t = "view" then some 1 else if t = "apply" then some 3
  else if t = "hire" then some 5 else none

/-- Sorted unique values, the index ordering produced by the pandas
groupby-unstack (group keys are sorted). -/
def sortedDedup (l : List String) : List String :=
  (List.insertionSort (fun a b => a ≤ b) l).dedup

/-- Sum of mapped weights of the rows of one (user, project) group;
the pandas sum skips NaN cells. -/
def interactionCell (rows : List InteractionRow) (u p : String) : ℚ :=
  (rows.filter (fun r => r.user_id == u && r.project_id == p)).foldl
    (fun acc r => acc + (weightMap r.interaction_type).getD 0) 0

/-- ProjectRecommendationEngine._create_interaction_matrix (lines 73-92).
The first component is the DataFrame as left behind by the call: the
assignment interaction_data["weight"] = ... adds a column to the very
object the caller passed in. -/
def create_interaction_matrix (interaction_data : InteractionFrame) :
    InteractionFrame × List String × List String × List (List ℚ) :=
  let interaction_data :=
    { interaction_data with
      weight_col := some (interaction_data.rows.map fun r => weightMap r.interaction_type) }
  let users := sortedDedup (interaction_data.rows.map (·.user_id))
  let items := sortedDedup (interaction_data.rows.map (·.project_id))
  let matrix_data := users.map fun u => items.map fun p =>
    interactionCell interaction_data.rows u p
  (interaction_data, users, items, matrix_data)

/-- The training metrics dict (lines 62-68). -/
structure TrainMetrics where
  num_users : ℕ
  num_items : ℕ
  sparsity : ℚ
  model_version : String
deriving DecidableEq

/-- Count of nonzero cells, the astype(bool).sum().sum() of the metrics. -/
def nonzeroCells (m : List (List ℚ)) : ℕ :=
  (m.map fun row => (row.filter (fun c => !(c == 0))).length).sum

/-- ProjectRecommendationEngine.train_collaborative_model (lines 35-71).
`cosine_similarity` is the external sklearn routine, passed explicitly; the
returned triple is the updated engine state, the interaction DataFrame as
left behind (mutated in place by _create_interaction_matrix), and the
metrics dict. -/
def train_collaborative_model (cosine_similarity : List (List ℚ) → List (List ℚ))
    (st : EngineState) (interaction_data : InteractionFrame) :
    EngineState × InteractionFrame × TrainMetrics :=
  let r := create_interaction_matrix interaction_data
  let interaction_data := r.1
  let users := r.2.1
  let items := r.2.2.1
  let matrix := r.2.2.2
  let st :=
    { st with
      user_item_matrix := some matrix
      similarity_model := some (cosine_similarity matrix)
      user_index := (users.enum).map fun p => (p.2, p.1)
      item_index := (items.enum).map fun p => (p.2, p.1) }
  let size := users.length * items.length
  let metrics : TrainMetrics :=
    { num_users := users.length
      num_items := items.length
      sparsity := 1 - (nonzeroCells matrix : ℚ) / (size : ℚ)
      model_version := st.model_version }
  (st, interaction_data, metrics)

/-- What rule 1 of the project-direction explanation generator contributes. -/
def skill_rule_part (skill_match : ℚ) : List String :=
  if 7/10 < skill_match then [strongSkillStr skill_match]
  else if 1/2 < skill_match then [goodSkillStr skill_match] else []

/-- What rule 1 of the talent-direction explanation generator contributes:
only the strong branch exists in the source. -/
def talent_skill_rule_part (skill_match : ℚ) : List String :=
  if 7/10 < skill_match then [strongSkillStr skill_match] else []

/-- Rules 2-5 of the project-direction explanation generator. -/
def proj_rest_rules (content_breakdown : Option Breakdown) (collab_score : ℚ) : List String :=
  let e : List String := []
  let budget_fit := (content_breakdown.map (·.budget_fit)).getD 0
  let e := if 4/5 < budget_fit then e ++ ["Budget aligns with your rate"] else e
  let experience_match := (content_breakdown.map (·.experience_match)).getD 0
  let e := if 7/10 ≤ experience_match then
    e ++ ["Project complexity matches your experience"] else e
  let e := if 7/10 < collab_score then
    e ++ ["Developers with similar profiles have applied"] else e
  let recency := (content_breakdown.map (·.recency_score)).getD 0
  if 1 ≤ recency then e ++ ["Recently posted project"] else e

/-- Rules 2-5 of the talent-direction explanation generator. -/
def talent_rest_rules (experience_match budget_fit reputation : ℚ)
    (developer : Developer) : List String :=
  let e : List String := []
  let e := if 7/10 ≤ experience_match then
    e ++ ["Experience level matches project complexity"] else e
  let e := if 4/5 < budget_fit then e ++ ["Rate within your budget"] else e
  let e := if 4/5 < reputation then
    e ++ ["Highly rated (" ++ fmt1 developer.average_rating ++ "/5.0)"] else e
  if developer.availability_status = "available" then e ++ ["Currently available"] else e

theorem talent_skill_match_eq : talent_skill_match = skill_match_score := rfl

theorem cold_skill_match_eq : cold_skill_match = skill_match_score := rfl

theorem skill_match_score_core (P R : Finset String) (h : R.Nonempty) :
    0 ≤ skill_match_score P R ∧ skill_match_score P R ≤ 1 ∧
      (skill_match_score P R = 1 ↔ R ⊆ P) := by
  have hpos : 0 < R.card := Finset.card_pos.mpr h
  have hcast : (0 : ℚ) < (R.card : ℚ) := by exact_mod_cast hpos
  have hle : (P ∩ R).card ≤ R.card := Finset.card_le_card Finset.inter_subset_right
  unfold skill_match_score
  rw [if_pos hpos]
  refine ⟨div_nonneg (by positivity) hcast.le, ?_, ?_⟩
  · rw [div_le_one hcast]
    exact_mod_cast hle
  · rw [div_eq_one_iff_eq hcast.ne']
    constructor
    · intro hc
      have hc2 : (P ∩ R).card = R.card := by exact_mod_cast hc
      have : P ∩ R = R := Finset.eq_of_subset_of_card_le Finset.inter_subset_right hc2.ge
      exact Finset.inter_eq_right.mp this
    · intro hsub
      have : P ∩ R = R := Finset.inter_eq_right.mpr hsub
      rw [this]

/-- C8: in both scoring directions the skill-match factor is 0.5 on an empty
required-skill set and otherwise |P ∩ R| / |R|, which lies in [0,1] and
equals 1 exactly when the requirements are covered. -/
theorem c8_skill_match (P R : Finset String) :
    (R = ∅ → skill_match_score P R = 1/2 ∧ talent_skill_match P R = 1/2) ∧
    (R ≠ ∅ →
      skill_match_score P R = ((P ∩ R).card : ℚ) / R.card ∧
      talent_skill_match P R = ((P ∩ R).card : ℚ) / R.card ∧
      (0 ≤ skill_match_score P R ∧ skill_match_score P R ≤ 1 ∧
        (skill_match_score P R = 1 ↔ R ⊆ P)) ∧
      (0 ≤ talent_skill_match P R ∧ talent_skill_match P R ≤ 1 ∧
        (talent_skill_match P R = 1 ↔ R ⊆ P))) := by
  constructor
  · intro hR
    subst hR
    constructor <;> simp [skill_match_score, talent_skill_match]
  · intro hR
    have hne : R.Nonempty := Finset.nonempty_iff_ne_empty.mpr hR
    have hpos : 0 < R.card := Finset.card_pos.mpr hne
    have hform : skill_match_score P R = ((P ∩ R).card : ℚ) / R.card := by
      unfold skill_match_score; rw [if_pos hpos]
    refine ⟨hform, by rw [talent_skill_match_eq]; exact hform, ?_, ?_⟩
    · exact skill_match_score_core P R hne
    · rw [talent_skill_match_eq]
      exact skill_match_score_core P R hne

theorem c8_skill_match_witness :
    (skill_match_score {"python", "react"} {"python", "react", "aws"} =
        ((({"python", "react"} : Finset String) ∩ {"python", "react", "aws"}).card : ℚ) /
          ({"python", "react", "aws"} : Finset String).card ∧
      talent_skill_match {"python", "react"} {"python", "react", "aws"} =
        ((({"python", "react"} : Finset String) ∩ {"python", "react", "aws"}).card : ℚ) /
          ({"python", "react", "aws"} : Finset String).card ∧
      (0 ≤ skill_match_score {"python", "react"} {"python", "react", "aws"} ∧
        skill_match_score {"python", "react"} {"python", "react", "aws"} ≤ 1 ∧
        (skill_match_score {"python", "react"} {"python", "react", "aws"} = 1 ↔
          ({"python", "react", "aws"} : Finset String) ⊆ {"python", "react"})) ∧
      (0 ≤ talent_skill_match {"python", "react"} {"python", "react", "aws"} ∧
        talent_skill_match {"python", "react"} {"python", "react", "aws"} ≤ 1 ∧
        (talent_skill_match {"python", "react"} {"python", "react", "aws"} = 1 ↔
          ({"python", "react", "aws"} : Finset String) ⊆ {"python", "react"}))) :=
  (c8_skill_match {"python", "react"} {"python", "react", "aws"}).2 (by decide)

/-- C1 counterexample: at an hourly rate equal to the lower boundary of the
range [80, 120], the developers-for-project budget factor is 1.0, not the
0.8 that the midpoint formula gives, so the formula does not hold in both
directions. -/
theorem c1_budget_fit_counterexample :
    talent_calculate_budget_alignment 80 { min := some 80, max := some 120 } ≠
      1 - |1/2 - ((80 : ℚ) - 80) / (120 - 80)| * (2/5) := by
  simp only [talent_calculate_budget_alignment, BudgetRange.isEmpty]
  norm_num
  rw [abs_of_pos (by norm_num : (0:ℚ) < 1/2)]
  norm_num

/-- C1 amended: for a bounded range with min < max and min ≤ r ≤ max, the
projects-for-developer factor equals 1 - |0.5 - (r - min)/(max - min)| * 0.4,
is 1.0 exactly at the midpoint and 0.8 exactly at either boundary, while the
developers-for-project factor is identically 1.0 inside the range. -/
theorem c1_budget_fit (r bmin bmax : ℚ) (h1 : bmin < bmax) (h2 : bmin ≤ r)
    (h3 : r ≤ bmax) :
    project_calculate_budget_alignment r { min := some bmin, max := some bmax } =
      1 - |1/2 - (r - bmin) / (bmax - bmin)| * (2/5) ∧
    (project_calculate_budget_alignment r { min := some bmin, max := some bmax } = 1 ↔
      r = (bmin + bmax) / 2) ∧
    (project_calculate_budget_alignment r { min := some bmin, max := some bmax } = 4/5 ↔
      (r = bmin ∨ r = bmax)) ∧
    talent_calculate_budget_alignment r { min := some bmin, max := some bmax } = 1 := by
  have hd : (0 : ℚ) < bmax - bmin := sub_pos.mpr h1
  have hform :
      project_calculate_budget_alignment r { min := some bmin, max := some bmax } =
        1 - |1/2 - (r - bmin) / (bmax - bmin)| * (2/5) := by
    simp only [project_calculate_budget_alignment, BudgetRange.isEmpty]
    simp [h2, h3]
  have htal :
      talent_calculate_budget_alignment r { min := some bmin, max := some bmax } = 1 := by
    simp only [talent_calculate_budget_alignment, BudgetRange.isEmpty]
    simp [h2, h3]
  refine ⟨hform, ?_, ?_, htal⟩
  · rw [hform]
    constructor
    · intro h
      have habs : |1/2 - (r - bmin) / (bmax - bmin)| = 0 := by linarith [abs_nonneg (1/2 - (r - bmin) / (bmax - bmin))]
      have hz : 1/2 - (r - bmin) / (bmax - bmin) = 0 := abs_eq_zero.mp habs
      have : (r - bmin) / (bmax - bmin) = 1/2 := by linarith
      rw [div_eq_iff hd.ne'] at this
      linarith
    · intro h
      subst h
      have : ((bmin + bmax) / 2 - bmin) / (bmax - bmin) = 1/2 := by
        rw [div_eq_iff hd.ne']; ring
      rw [this]
      norm_num
  · rw [hform]
    constructor
    · intro h
      have habs : |1/2 - (r - bmin) / (bmax - bmin)| = 1/2 := by linarith
      rcases (abs_eq (by norm_num : (0:ℚ) ≤ 1/2)).mp habs with hc | hc
      · left
        have : (r - bmin) / (bmax - bmin) = 0 := by linarith
        rw [div_eq_zero_iff] at this
        rcases this with hz | hz
        · linarith
        · exact absurd hz hd.ne'
      · right
        have : (r - bmin) / (bmax - bmin) = 1 := by linarith
        rw [div_eq_one_iff_eq hd.ne'] at this
        linarith
    · intro h
      rcases h with h | h
      · rw [h, sub_self, zero_div, sub_zero, abs_of_pos (by norm_num : (0:ℚ) < 1/2)]
        norm_num
      · rw [h, div_self hd.ne']
        have habs : |(1:ℚ)/2 - 1| = 1/2 := by
          rw [abs_of_nonpos (by norm_num : (1:ℚ)/2 - 1 ≤ 0)]
          norm_num
        rw [habs]
        norm_num

theorem c1_budget_fit_witness :
    (project_calculate_budget_alignment 100 { min := some 80, max := some 120 } =
      1 - |1/2 - ((100 : ℚ) - 80) / (120 - 80)| * (2/5) ∧
    (project_calculate_budget_alignment 100 { min := some 80, max := some 120 } = 1 ↔
      (100 : ℚ) = (80 + 120) / 2) ∧
    (project_calculate_budget_alignment 100 { min := some 80, max := some 120 } = 4/5 ↔
      ((100 : ℚ) = 80 ∨ (100 : ℚ) = 120)) ∧
    talent_calculate_budget_alignment 100 { min := some 80, max := some 120 } = 1) :=
  c1_budget_fit 100 80 120 (by norm_num) (by norm_num) (by norm_num)

theorem ite_append {c : Prop} [Decidable c] (x y : List String) :
    (if c then x ++ y else x) = x ++ (if c then y else []) := by
  split_ifs <;> simp

/-- C4 counterexample: in the developers-for-project direction a skill match
of 0.667 produces no "Good skill match (66%)" string at all - the talent
explanation generator has no good-skill branch, so the claimed rule does not
hold in both directions. -/
theorem c4_explanation_counterexample :
    generate_talent_explanation (667/1000) 0 0 0 { user_id := "d" } =
      ["Matches project requirements"] ∧
    "Good skill match (66%)" ∉
      generate_talent_explanation (667/1000) 0 0 0 { user_id := "d" } := by
  constructor <;> (norm_num [generate_talent_explanation]; decide)

/-- C4 amended: rule 1 of the projects-for-developer explanation appends
"Strong skill match (N%)" for skill_match above 0.7, else "Good skill match
(N%)" above 0.5, else nothing; rule 1 of the developers-for-project
explanation appends only the strong string above 0.7 and nothing otherwise;
at skill_match 0.667 the project-direction explanation contains
"Good skill match (66%)" and no strong string, while the talent-direction
explanation contains neither. -/
theorem c4_explanation (bd667 : Breakdown)
    (hbd : bd667 =
      { skill_match := 667/1000, experience_match := 0, budget_fit := 0,
        recency_score := 0, preference_match := 0, composite_score := 0 }) :
    (∀ (content_breakdown : Option Breakdown) (collab_score : ℚ)
        (profile : DeveloperProfile) (project : Project),
      generate_explanation content_breakdown collab_score profile project =
        (if skill_rule_part ((content_breakdown.map (·.skill_match)).getD 0) ++
            proj_rest_rules content_breakdown collab_score = [] then
          ["Matches your general profile"]
        else skill_rule_part ((content_breakdown.map (·.skill_match)).getD 0) ++
            proj_rest_rules content_breakdown collab_score)) ∧
    (∀ (skill_match experience_match budget_fit reputation : ℚ) (developer : Developer),
      generate_talent_explanation skill_match experience_match budget_fit reputation
          developer =
        (if talent_skill_rule_part skill_match ++
            talent_rest_rules experience_match budget_fit reputation developer = [] then
          ["Matches project requirements"]
        else talent_skill_rule_part skill_match ++
            talent_rest_rules experience_match budget_fit reputation developer)) ∧
    "Good skill match (66%)" ∈
      generate_explanation (some bd667) 0 ({} : DeveloperProfile) ({ id := "p" } : Project) ∧
    "Strong skill match (66%)" ∉
      generate_explanation (some bd667) 0 ({} : DeveloperProfile) ({ id := "p" } : Project) ∧
    "Good skill match (66%)" ∉
      generate_talent_explanation bd667.skill_match 0 0 0 { user_id := "d" } := by
  subst hbd
  refine ⟨?_, ?_, ?_, ?_, ?_⟩
  · intro content_breakdown collab_score profile project
    simp only [generate_explanation, skill_rule_part, proj_rest_rules, ite_append,
      List.nil_append]
    simp only [List.append_assoc]
  · intro skill_match experience_match budget_fit reputation developer
    simp only [generate_talent_explanation, talent_skill_rule_part, talent_rest_rules,
      ite_append, List.nil_append]
    simp only [List.append_assoc]
  · norm_num [generate_explanation, goodSkillStr, pyInt]
    decide
  · norm_num [generate_explanation, strongSkillStr, goodSkillStr, pyInt]
    decide
  · norm_num [generate_talent_explanation]
    decide

theorem c4_explanation_witness :
    "Good skill match (66%)" ∈
      generate_explanation
        (some
          { skill_match := 667/1000, experience_match := 0, budget_fit := 0,
            recency_score := 0, preference_match := 0, composite_score := 0 }) 0
        ({} : DeveloperProfile) ({ id := "p" } : Project) :=
  (c4_explanation
    { skill_match := 667/1000, experience_match := 0, budget_fit := 0,
      recency_score := 0, preference_match := 0, composite_score := 0 } rfl).2.2.1

/-- C5 counterexample: the content scorer is not a function of the snapshot
and its arguments alone - the recency factor reads the wall clock, so two
runs on identical inputs at different times disagree (here a project created
at time 0, scored at that instant and ten days later). -/
theorem c5_purity_counterexample :
    calculate_content_scores 0 ({} : DeveloperProfile)
        [{ id := "p", created_at := some 0 }] ≠
      calculate_content_scores 864000 ({} : DeveloperProfile)
        [{ id := "p", created_at := some 0 }] := by
  norm_num [calculate_content_scores, skill_match_score, calculate_experience_fit,
    project_calculate_budget_alignment, BudgetRange.isEmpty, calculate_recency_score,
    calculate_preference_match, round4, bankersRound, Int.fdiv]

/-- C5 amended: the content scorer is a deterministic function of the
snapshot inputs and the current clock, and the clock enters only through the
recency factor: whenever two clock readings give every candidate the same
recency bucket, the full content-score output is identical. -/
theorem c5_content_clock (now1 now2 : ℤ) (profile : DeveloperProfile)
    (projects : List Project)
    (h : ∀ p ∈ projects,
      calculate_recency_score now1 p.created_at =
        calculate_recency_score now2 p.created_at) :
    calculate_content_scores now1 profile projects =
      calculate_content_scores now2 profile projects := by
  unfold calculate_content_scores
  apply List.map_congr_left
  intro p hp
  rw [h p hp]

theorem c5_content_clock_witness :
    calculate_content_scores 0 ({} : DeveloperProfile) [{ id := "p" }] =
      calculate_content_scores 864000 ({} : DeveloperProfile) [{ id := "p" }] :=
  c5_content_clock 0 864000 {} [{ id := "p" }]
    (by intro p hp; simp at hp; subst hp; rfl)

/-- C6: the neighbor selection drops only the first element of the
descending similarity order.  On the row [1, 1, 0.2] - user 0 scoring
itself while user 1 ties at similarity 1.0, as happens for two users with
identical interaction vectors - the dropped element is user 1 and the
target user 0 itself remains among the selected neighbors, contrary to the
sources exclusion comment.  With a unique maximum (row [1, 0.5]) self is
excluded as intended. -/
theorem c6_self_neighbor :
    0 ∈ similarNeighborIndices [1, 1, 1/5] 50 ∧
    0 ∉ similarNeighborIndices [1, 1/2] 50 := by
  constructor <;> norm_num [similarNeighborIndices, argsortAsc]

/-- C3 counterexample: loading a deserialized blob that carries
similarity_model but no further key raises, yet overwrites
similarity_model - the pre-call state is not fully preserved on this
failing load. -/
theorem c3_load_counterexample :
    ((load_model { model_version := "v0" }
        (.parsed { similarity_model := some (some [[1]]) })).2).isSome = true ∧
    (load_model { model_version := "v0" }
        (.parsed { similarity_model := some (some [[1]]) })).1 ≠
      ({ model_version := "v0" } : EngineState) := by
  constructor
  · rfl
  · intro heq
    have h2 := congrArg EngineState.similarity_model heq
    simp [load_model] at h2

/-- C3 amended: a load that fails before any field assignment (missing
file, corrupt bytes, or a blob without similarity_model) leaves the state
untouched; a blob missing a later required key raises KeyError after
overwriting exactly the fields whose keys precede the first missing one, in
the fixed order similarity_model, user_item_matrix, user_index, item_index,
model_version; a blob with all five keys replaces every field and raises
nothing. -/
theorem c3_load_model (st : EngineState) (blob : ModelBlob) :
    load_model st .fileMissing = (st, some "FileNotFoundError") ∧
    load_model st .corruptBytes = (st, some "UnpicklingError") ∧
    (blob.similarity_model = none →
      load_model st (.parsed blob) = (st, some "KeyError: similarity_model")) ∧
    (∀ sm, blob.similarity_model = some sm → blob.user_item_matrix = none →
      load_model st (.parsed blob) =
        ({ st with similarity_model := sm }, some "KeyError: user_item_matrix")) ∧
    (∀ sm m, blob.similarity_model = some sm → blob.user_item_matrix = some m →
      blob.user_index = none →
      load_model st (.parsed blob) =
        ({ st with similarity_model := sm, user_item_matrix := m },
          some "KeyError: user_index")) ∧
    (∀ sm m ui, blob.similarity_model = some sm → blob.user_item_matrix = some m →
      blob.user_index = some ui → blob.item_index = none →
      load_model st (.parsed blob) =
        ({ st with similarity_model := sm, user_item_matrix := m, user_index := ui },
          some "KeyError: item_index")) ∧
    (∀ sm m ui ii, blob.similarity_model = some sm → blob.user_item_matrix = some m →
      blob.user_index = some ui → blob.item_index = some ii →
      blob.model_version = none →
      load_model st (.parsed blob) =
        ({ st with
            similarity_model := sm, user_item_matrix := m, user_index := ui,
            item_index := ii }, some "KeyError: model_version")) ∧
    (∀ sm m ui ii v, blob.similarity_model = some sm → blob.user_item_matrix = some m →
      blob.user_index = some ui → blob.item_index = some ii →
      blob.model_version = some v →
      load_model st (.parsed blob) =
        ({ similarity_model := sm, user_item_matrix := m, user_index := ui
           item_index := ii, model_version := v }, none)) := by
  refine ⟨rfl, rfl, ?_, ?_, ?_, ?_, ?_, ?_⟩
  · intro h1
    simp [load_model, h1]
  · intro sm h1 h2
    simp [load_model, h1, h2]
  · intro sm m h1 h2 h3
    simp [load_model, h1, h2, h3]
  · intro sm m ui h1 h2 h3 h4
    simp [load_model, h1, h2, h3, h4]
  · intro sm m ui ii h1 h2 h3 h4 h5
    simp [load_model, h1, h2, h3, h4, h5]
  · intro sm m ui ii v h1 h2 h3 h4 h5
    simp [load_model, h1, h2, h3, h4, h5]

theorem c3_load_model_witness :
    load_model { model_version := "v0" }
        (.parsed { similarity_model := some (some [[1]]) }) =
      ({ similarity_model := some [[1]], model_version := "v0" },
        some "KeyError: user_item_matrix") :=
  (c3_load_model { model_version := "v0" }
    { similarity_model := some (some [[1]]) }).2.2.2.1 (some [[1]]) rfl rfl

/-- C10: training mutates its input - _create_interaction_matrix writes a
weight column into the caller-supplied DataFrame, so whenever the argument
lacked that column the object observably differs after
train_collaborative_model returns (its rows are untouched; only the weight
column is added). -/
theorem c10_train_mutates (cosine_similarity : List (List ℚ) → List (List ℚ))
    (st : EngineState) (df : InteractionFrame) (h : df.weight_col = none) :
    (train_collaborative_model cosine_similarity st df).2.1 ≠ df ∧
    (train_collaborative_model cosine_similarity st df).2.1.weight_col =
      some (df.rows.map fun r => weightMap r.interaction_type) ∧
    (train_collaborative_model cosine_similarity st df).2.1.rows = df.rows := by
  refine ⟨?_, rfl, rfl⟩
  intro heq
  have h2 := congrArg InteractionFrame.weight_col heq
  simp [train_collaborative_model, create_interaction_matrix, h] at h2

theorem c10_train_mutates_witness :
    (train_collaborative_model (fun m => m) {}
        { rows := [{ user_id := "u", project_id := "p"
                     interaction_type := "view" }] }).2.1 ≠
      { rows := [{ user_id := "u", project_id := "p"
                   interaction_type := "view" }] } :=
  (c10_train_mutates (fun m => m) {}
    { rows := [{ user_id := "u", project_id := "p", interaction_type := "view" }] }
    rfl).1


theorem sortKeyDesc_perm {α : Type} (score : α → ℚ) (l : List α) :
    List.Perm (sortKeyDesc score l) l :=
  List.perm_insertionSort _ l

theorem sortKeyDesc_pairwise {α : Type} (score : α → ℚ) (l : List α) :
    (sortKeyDesc score l).Pairwise (descBy score) :=
  List.sorted_insertionSort _ l

theorem filter_orderedInsert {α : Type} (score : α → ℚ) (v : ℚ) (a : α) :
    ∀ L : List α, L.Pairwise (descBy score) →
      (List.orderedInsert (descBy score) a L).filter (fun x => score x = v) =
        (if score a = v then [a] else []) ++ L.filter (fun x => score x = v)
  | [], _ => by
    simp only [List.orderedInsert, List.filter_nil, List.append_nil]
    split_ifs <;> simp_all
  | b :: L, hL => by
    by_cases hab : descBy score a b
    · rw [List.orderedInsert_of_le _ _ hab]
      simp only [List.filter_cons]
      split_ifs <;> simp_all
    · have hstep : List.orderedInsert (descBy score) a (b :: L) =
          b :: List.orderedInsert (descBy score) a L := by
        simp [List.orderedInsert, hab]
      rw [hstep]
      have IH := filter_orderedInsert score v a L hL.of_cons
      by_cases hpa : score a = v
      · have hlt : score a < score b := not_le.mp hab
        have hpb : ¬ (score b = v) := by
          rw [← hpa]
          exact hlt.ne'

        simp [List.filter_cons, hpa, hpb, IH]
      · simp [List.filter_cons, hpa, IH]

theorem filter_sortKeyDesc {α : Type} (score : α → ℚ) (v : ℚ) :
    ∀ l : List α,
      (sortKeyDesc score l).filter (fun x => score x = v) =
        l.filter (fun x => score x = v)
  | [] => rfl
  | a :: l => by
    show (List.orderedInsert (descBy score) a
        (List.insertionSort (descBy score) l)).filter (fun x => score x = v) = _
    rw [filter_orderedInsert score v a _ (List.sorted_insertionSort _ l)]
    rw [show List.insertionSort (descBy score) l = sortKeyDesc score l from rfl]
    rw [filter_sortKeyDesc score v l]
    simp only [List.filter_cons]
    split_ifs <;> simp_all

theorem rankAssignFrom_map_proj {α β : Type} (setRank : α → ℕ → α) (proj : α → β)
    (hproj : ∀ x n, proj (setRank x n) = proj x) :
    ∀ (k : ℕ) (l : List α), (rankAssignFrom setRank k l).map proj = l.map proj
  | _, [] => rfl
  | k, x :: xs => by
    simp [rankAssignFrom, hproj, rankAssignFrom_map_proj setRank proj hproj (k+1) xs]

theorem rankAssignFrom_filter_map {α β : Type} (score : α → ℚ) (setRank : α → ℕ → α)
    (proj : α → β) (v : ℚ)
    (hscore : ∀ x n, score (setRank x n) = score x)
    (hproj : ∀ x n, proj (setRank x n) = proj x) :
    ∀ (k : ℕ) (l : List α),
      ((rankAssignFrom setRank k l).filter (fun x => score x = v)).map proj =
        (l.filter (fun x => score x = v)).map proj
  | _, [] => rfl
  | k, x :: xs => by
    simp only [rankAssignFrom, List.filter_cons, hscore]
    by_cases hx : score x = v
    · simp [hx, hproj,
        rankAssignFrom_filter_map score setRank proj v hscore hproj (k+1) xs]
    · simp [hx,
        rankAssignFrom_filter_map score setRank proj v hscore hproj (k+1) xs]

theorem rankAssignFrom_length {α : Type} (setRank : α → ℕ → α) :
    ∀ (k : ℕ) (l : List α), (rankAssignFrom setRank k l).length = l.length
  | _, [] => rfl
  | k, _ :: xs => by
    simp [rankAssignFrom, rankAssignFrom_length setRank (k+1) xs]

theorem rankAssignFrom_mem {α : Type} (setRank : α → ℕ → α) :
    ∀ (k : ℕ) (l : List α) (x : α), x ∈ rankAssignFrom setRank k l →
      ∃ y ∈ l, ∃ n, x = setRank y n
  | _, [], _, hx => by simp [rankAssignFrom] at hx
  | k, y :: ys, x, hx => by
    rcases (List.mem_cons).mp hx with h | h
    · exact ⟨y, List.mem_cons_self y ys, k + 1, h⟩
    · rcases rankAssignFrom_mem setRank (k+1) ys x h with ⟨z, hz, n, hn⟩
      exact ⟨z, List.mem_cons_of_mem y hz, n, hn⟩

theorem rankAssignFrom_map_rank {α : Type} (setRank : α → ℕ → α)
    (getRank : α → Option ℕ) (hrank : ∀ x n, getRank (setRank x n) = some n) :
    ∀ (k : ℕ) (l : List α),
      (rankAssignFrom setRank k l).map getRank =
        (List.range l.length).map (fun i => some (k + i + 1))
  | _, [] => rfl
  | k, x :: xs => by
    simp only [rankAssignFrom, List.map_cons, hrank, List.length_cons,
      List.range_succ_eq_map, List.map_map]
    rw [rankAssignFrom_map_rank setRank getRank hrank (k+1) xs]
    refine congrArg₂ List.cons (by simp) ?_
    apply List.map_congr_left
    intro i _
    simp only [Function.comp_apply]
    congr 1
    omega

/-- C9 counterexample: the stored relevance_score is the 4-decimal rounding
of the blend, not the blend itself - with 7 required skills and 1 matching
skill (skill_match 1/7) and application_count 25, the stored score is
0.3929 while the unrounded formula gives 0.39285714... . -/
theorem c9_cold_start_counterexample :
    (get_cold_start_project_recommendations
        [{ id := "p", required_skills := ["a","b","c","d","e","f","g"]
           application_count := some 25 }] { skills := ["a"] } 10).map
        (·.relevance_score) ≠
      [Min.min ((25:ℚ)/50) 1 * (7/10) +
        cold_skill_match (List.toFinset ["a"])
          (List.toFinset ["a","b","c","d","e","f","g"]) * (3/10)] := by
  have h : cold_skill_match ({"a"} : Finset String)
      ({"a","b","c","d","e","f","g"} : Finset String) = 1/7 := by
    have h7 : ({"a","b","c","d","e","f","g"} : Finset String).card = 7 := by decide
    have h1 : (({"a"} : Finset String) ∩
        ({"a","b","c","d","e","f","g"} : Finset String)).card = 1 := by decide
    rw [cold_skill_match, if_pos (by rw [h7]; norm_num), h1, h7]
    norm_num
  simp only [get_cold_start_project_recommendations, build_cold_start_recs, finalizeRanked,
    sortKeyDesc, List.map_cons, List.map_nil, List.insertionSort]
  norm_num [h, rankAssignFrom, ColdRec.setRank, round4, bankersRound]

/-- C9 amended: every cold-start recommendation carries the fixed version
label cold_start_v1 (which differs from every trained-model tag of the form
v1.0_ followed by a date) and a relevance_score equal to the 4-decimal
rounding of 0.7 * min(application_count / 50, 1) + 0.3 * skill_match; with
application_count 25 and skill_match 0.4 the score is exactly 0.47. -/
theorem c9_cold_start (popular : List Project) (profile : DeveloperProfile) (limit : ℕ) :
    (∀ r ∈ get_cold_start_project_recommendations popular profile limit,
      r.model_version = "cold_start_v1" ∧
      ∃ p ∈ popular,
        r.project_id = p.id ∧
        r.relevance_score =
          round4 (Min.min (p.application_count.getD 0 / 50) 1 * (7/10) +
            cold_skill_match profile.skills.toFinset p.required_skills.toFinset
              * (3/10))) ∧
    (∀ s : String, "cold_start_v1" ≠ "v1.0_" ++ s) ∧
    (get_cold_start_project_recommendations
        [{ id := "p", required_skills := ["a","b","c","d","e"]
           application_count := some 25 }] { skills := ["a","b"] } 10).map
        (fun r => (r.relevance_score, r.model_version, r.rank_position)) =
      [(47/100, "cold_start_v1", some 1)] := by
  refine ⟨?_, ?_, ?_⟩
  · intro r hr
    simp only [get_cold_start_project_recommendations, finalizeRanked] at hr
    obtain ⟨y, hy, n, hn⟩ := rankAssignFrom_mem ColdRec.setRank 0 _ r hr
    have hy2 : y ∈ sortKeyDesc (fun r => r.relevance_score)
        (build_cold_start_recs popular profile) := List.mem_of_mem_take hy
    have hy3 : y ∈ build_cold_start_recs popular profile :=
      (sortKeyDesc_perm (fun r => r.relevance_score) _).mem_iff.mp hy2
    simp only [build_cold_start_recs, List.mem_map] at hy3
    obtain ⟨p, hp, hpe⟩ := hy3
    subst hn
    refine ⟨?_, p, hp, ?_, ?_⟩ <;> rw [← hpe] <;> rfl
  · intro s h
    have h2 := congrArg String.data h
    simp [String.data_append] at h2
  · have h : cold_skill_match ({"a","b"} : Finset String)
        ({"a","b","c","d","e"} : Finset String) = 2/5 := by
      have h5 : ({"a","b","c","d","e"} : Finset String).card = 5 := by decide
      have h2 : (({"a","b"} : Finset String) ∩
          ({"a","b","c","d","e"} : Finset String)).card = 2 := by decide
      rw [cold_skill_match, if_pos (by rw [h5]; norm_num), h2, h5]
      norm_num
    simp only [get_cold_start_project_recommendations, build_cold_start_recs,
      finalizeRanked, sortKeyDesc, List.map_cons, List.map_nil, List.insertionSort]
    norm_num [h, rankAssignFrom, ColdRec.setRank, round4, bankersRound]

theorem c9_cold_start_witness :
    (get_cold_start_project_recommendations [{ id := "p", required_skills := ["a","b","c","d","e"], application_count := some 25 }] { skills := ["a","b"] } 10).map (fun r => (r.relevance_score, r.model_version, r.rank_position)) = [(47/100, "cold_start_v1", some 1)] :=
  (c9_cold_start [{ id := "p", required_skills := ["a","b","c","d","e"], application_count := some 25 }] { skills := ["a","b"] } 10).2.2

theorem foldl_pair_sum (w f g : ℕ → ℚ) :
    ∀ (l : List ℕ) (a b : ℚ),
      l.foldl (fun nd i => if 0 < w i then (nd.1 + f i, nd.2 + g i) else nd) (a, b) =
        (a + ((l.filter (fun i => 0 < w i)).map f).sum,
          b + ((l.filter (fun i => 0 < w i)).map g).sum)
  | [], a, b => by simp
  | i :: l, a, b => by
    simp only [List.foldl_cons, List.filter_cons]
    by_cases h : 0 < w i
    · rw [if_pos h]
      rw [foldl_pair_sum w f g l (a + f i) (b + g i)]
      simp [h, List.sum_cons]
      constructor <;> ring
    · rw [if_neg h]
      rw [foldl_pair_sum w f g l a b]
      simp [h]

/-- C2: collaborative scoring returns the neutral 0.5 for every candidate
when no similarity model is trained or the user is unseen; otherwise each
candidate absent from the item index scores 0.5, and each indexed candidate
scores min(((Σ similarity * interaction over neighbors with positive
interaction) / (Σ similarity over those same neighbors)) / 10, 1), with 0.5
when that denominator is zero. -/
theorem c2_collaborative_scores (st : EngineState) (user_id : String)
    (candidate_projects : List String) (top_k : ℕ) :
    ((st.similarity_model = none ∨ dictGet st.user_index user_id = none) →
      calculate_collaborative_scores st user_id candidate_projects top_k =
        candidate_projects.map fun project_id => (project_id, 1/2)) ∧
    (∀ sim user_idx, st.similarity_model = some sim →
      dictGet st.user_index user_id = some user_idx →
      calculate_collaborative_scores st user_id candidate_projects top_k =
        candidate_projects.map fun project_id =>
          match dictGet st.item_index project_id with
          | none => (project_id, 1/2)
          | some project_idx =>
            (project_id,
              if 0 < ((((similarNeighborIndices (sim.getD user_idx []) top_k).filter
                    (fun i => 0 < interactionAt st i project_idx)).map
                    (fun i => (sim.getD user_idx []).getD i 0)).sum) then
                Min.min
                  (((((similarNeighborIndices (sim.getD user_idx []) top_k).filter
                      (fun i => 0 < interactionAt st i project_idx)).map
                      (fun i => (sim.getD user_idx []).getD i 0 *
                        interactionAt st i project_idx)).sum) /
                    ((((similarNeighborIndices (sim.getD user_idx []) top_k).filter
                      (fun i => 0 < interactionAt st i project_idx)).map
                      (fun i => (sim.getD user_idx []).getD i 0)).sum) / 10) 1
              else 1/2)) := by
  constructor
  · intro h
    rcases hs : st.similarity_model with _ | sim
    · simp [calculate_collaborative_scores, hs]
    · rcases h with h | h
      · rw [hs] at h
        exact absurd h (by simp)
      · simp [calculate_collaborative_scores, hs, h]
  · intro sim user_idx h1 h2
    simp only [calculate_collaborative_scores, h1, h2]
    apply List.map_congr_left
    intro project_id _
    rcases hitem : dictGet st.item_index project_id with _ | project_idx
    · simp [hitem]
    · simp only [hitem]
      rw [foldl_pair_sum
        (fun i => interactionAt st i project_idx)
        (fun i => (sim.getD user_idx []).getD i 0 * interactionAt st i project_idx)
        (fun i => (sim.getD user_idx []).getD i 0)
        (similarNeighborIndices (sim.getD user_idx []) top_k) 0 0]
      simp
      split_ifs <;> rfl

theorem c2_collaborative_scores_witness :
    calculate_collaborative_scores { similarity_model := some [[1, 1/2],[1/2, 1]], user_item_matrix := some [[5,0],[0,3]], user_index := [("u0",0),("u1",1)], item_index := [("p0",0),("p1",1)], model_version := "v" } "u0" ["p0", "p1"] 50 = [("p0", 1/2), ("p1", 3/10)] := by
  have h := (c2_collaborative_scores { similarity_model := some [[1, 1/2],[1/2, 1]], user_item_matrix := some [[5,0],[0,3]], user_index := [("u0",0),("u1",1)], item_index := [("p0",0),("p1",1)], model_version := "v" } "u0" ["p0", "p1"] 50).2 [[1, 1/2],[1/2, 1]] 0 rfl rfl
  refine h.trans ?_
  have hsn : similarNeighborIndices ([[(1:ℚ), 1/2],[1/2,1]].getD 0 []) 50 = [1] := by
    norm_num [similarNeighborIndices, argsortAsc]
  rw [hsn]
  have hd0 : dictGet ({ similarity_model := some [[1, 1/2],[1/2, 1]], user_item_matrix := some [[5,0],[0,3]], user_index := [("u0",0),("u1",1)], item_index := [("p0",0),("p1",1)], model_version := "v" } : EngineState).item_index "p0" = some 0 := rfl
  have hd1 : dictGet ({ similarity_model := some [[1, 1/2],[1/2, 1]], user_item_matrix := some [[5,0],[0,3]], user_index := [("u0",0),("u1",1)], item_index := [("p0",0),("p1",1)], model_version := "v" } : EngineState).item_index "p1" = some 1 := rfl
  have hi0 : interactionAt { similarity_model := some [[1, 1/2],[1/2, 1]], user_item_matrix := some [[5,0],[0,3]], user_index := [("u0",0),("u1",1)], item_index := [("p0",0),("p1",1)], model_version := "v" } 1 0 = 0 := rfl
  have hi1 : interactionAt { similarity_model := some [[1, 1/2],[1/2, 1]], user_item_matrix := some [[5,0],[0,3]], user_index := [("u0",0),("u1",1)], item_index := [("p0",0),("p1",1)], model_version := "v" } 1 1 = 3 := rfl
  norm_num [hd0, hd1, hi0, hi1]

theorem finalizeRanked_spec {α β : Type} (score : α → ℚ) (setRank : α → ℕ → α)
    (getRank : α → Option ℕ) (proj : α → β) (l : List α) (limit : ℕ)
    (hscore : ∀ x n, score (setRank x n) = score x)
    (hrank : ∀ x n, getRank (setRank x n) = some n)
    (hproj : ∀ x n, proj (setRank x n) = proj x) :
    (finalizeRanked score setRank l limit).Pairwise
      (fun a b => score b ≤ score a) ∧
    (finalizeRanked score setRank l limit).length = Min.min limit l.length ∧
    (finalizeRanked score setRank l limit).map getRank =
      (List.range (finalizeRanked score setRank l limit).length).map
        (fun i => some (i + 1)) ∧
    ∀ v : ℚ, ∃ t,
      ((finalizeRanked score setRank l limit).filter
        (fun x => score x = v)).map proj ++ t =
      (l.filter (fun x => score x = v)).map proj := by
  have hlen : (finalizeRanked score setRank l limit).length =
      Min.min limit l.length := by
    rw [finalizeRanked, rankAssignFrom_length, List.length_take,
      (sortKeyDesc_perm score l).length_eq]
  refine ⟨?_, hlen, ?_, ?_⟩
  · have hT : ((sortKeyDesc score l).take limit).Pairwise (descBy score) :=
      (sortKeyDesc_pairwise score l).sublist (List.take_sublist limit _)
    have hmap := rankAssignFrom_map_proj setRank score hscore 0
      ((sortKeyDesc score l).take limit)
    have h1 : ((rankAssignFrom setRank 0
        ((sortKeyDesc score l).take limit)).map score).Pairwise
        (fun x y : ℚ => y ≤ x) := by
      rw [hmap]
      exact List.pairwise_map.mpr hT
    exact List.pairwise_map.mp h1
  · rw [finalizeRanked,
      rankAssignFrom_map_rank setRank getRank hrank 0 ((sortKeyDesc score l).take limit),
      rankAssignFrom_length]
    apply List.map_congr_left
    intro i _
    simp
  · intro v
    refine ⟨(((sortKeyDesc score l).drop limit).filter
      (fun x => score x = v)).map proj, ?_⟩
    rw [finalizeRanked,
      rankAssignFrom_filter_map score setRank proj v hscore hproj 0 _]
    rw [← List.map_append, ← List.filter_append, List.take_append_drop]
    rw [filter_sortKeyDesc score v l]

/-- C7: in both recommendation directions the returned list is sorted by
relevance_score descending, truncated to the limit, rank_position runs
1..min(limit, candidate_count) in order, relevance_score is non-increasing
across consecutive ranks, and candidates with exactly equal relevance_score
keep their original input order (the returned equal-score ids are a prefix
of the equal-score ids of the pre-sort recommendation list, which is built
in candidate input order). -/
theorem c7_ranking :
    (∀ (st : EngineState) (now : ℤ) (developer_id : String)
        (developer_profile : DeveloperProfile) (candidate_projects : List Project)
        (limit : ℕ) (hybrid_weights : Option HybridWeights),
      (generate_project_recommendations st now developer_id developer_profile
          candidate_projects limit hybrid_weights).Pairwise
        (fun a b => b.relevance_score ≤ a.relevance_score) ∧
      (generate_project_recommendations st now developer_id developer_profile
          candidate_projects limit hybrid_weights).length =
        Min.min limit candidate_projects.length ∧
      (generate_project_recommendations st now developer_id developer_profile
          candidate_projects limit hybrid_weights).map (fun r => r.rank_position) =
        (List.range (generate_project_recommendations st now developer_id
          developer_profile candidate_projects limit hybrid_weights).length).map
          (fun i => some (i + 1)) ∧
      ∀ v : ℚ, ∃ t,
        ((generate_project_recommendations st now developer_id developer_profile
            candidate_projects limit hybrid_weights).filter
          (fun r => r.relevance_score = v)).map (fun r => r.project_id) ++ t =
        ((build_project_recs st now developer_id developer_profile
            candidate_projects hybrid_weights).filter
          (fun r => r.relevance_score = v)).map (fun r => r.project_id)) ∧
    (∀ (model_version : String) (project : Project)
        (candidate_developers : List Developer) (limit : ℕ),
      (generate_talent_recommendations model_version project candidate_developers
          limit).Pairwise (fun a b => b.relevance_score ≤ a.relevance_score) ∧
      (generate_talent_recommendations model_version project candidate_developers
          limit).length = Min.min limit candidate_developers.length ∧
      (generate_talent_recommendations model_version project candidate_developers
          limit).map (fun r => r.rank_position) =
        (List.range (generate_talent_recommendations model_version project
          candidate_developers limit).length).map (fun i => some (i + 1)) ∧
      ∀ v : ℚ, ∃ t,
        ((generate_talent_recommendations model_version project candidate_developers
            limit).filter (fun r => r.relevance_score = v)).map
          (fun r => r.developer_user_id) ++ t =
        ((build_talent_recs model_version project candidate_developers).filter
          (fun r => r.relevance_score = v)).map (fun r => r.developer_user_id)) := by
  constructor
  · intro st now developer_id developer_profile candidate_projects limit hybrid_weights
    have h := finalizeRanked_spec (fun r : ProjectRec => r.relevance_score)
      ProjectRec.setRank (fun r => r.rank_position) (fun r => r.project_id)
      (build_project_recs st now developer_id developer_profile candidate_projects
        hybrid_weights) limit
      (fun _ _ => rfl) (fun _ _ => rfl) (fun _ _ => rfl)
    have hl : (build_project_recs st now developer_id developer_profile
        candidate_projects hybrid_weights).length = candidate_projects.length := by
      simp [build_project_recs]
    exact ⟨h.1, h.2.1.trans (by rw [hl]), h.2.2.1, h.2.2.2⟩
  · intro model_version project candidate_developers limit
    have h := finalizeRanked_spec (fun r : TalentRec => r.relevance_score)
      TalentRec.setRank (fun r => r.rank_position) (fun r => r.developer_user_id)
      (build_talent_recs model_version project candidate_developers) limit
      (fun _ _ => rfl) (fun _ _ => rfl) (fun _ _ => rfl)
    have hl : (build_talent_recs model_version project candidate_developers).length =
        candidate_developers.length := by
      simp [build_talent_recs]
    exact ⟨h.1, h.2.1.trans (by rw [hl]), h.2.2.1, h.2.2.2⟩
